import Mathlib

/-!
Shallow embedding of the AI-Nihongo task-classification and
multi-provider orchestration core (`ai_nihongo/core/agent.py`,
`ai_nihongo/services/model_orchestrator.py`,
`ai_nihongo/services/translation_service.py`), together with theorems
settling the frozen claims about it.

Python strings are modelled as Lean `String` (a sequence of Unicode code
points, matching Python's `len`/slicing semantics); `str.lower` is
modelled character-wise by `Char.toLower`; raising an exception is
modelled by `Option`/`Except` failure values.
-/

namespace AINihongo

/-! ## Python string-operation embeddings -/

/-- Character-wise lowercasing, embedding Python `str.lower()` on the
ASCII letters that all keyword tests in this code base use. -/
def pyLower (s : String) : String :=
  String.mk (s.toList.map Char.toLower)

/-- Bool test that `pat` is an initial segment of `s`
(embeds Python `str.startswith`). -/
def startsWithL : List Char → List Char → Bool
  | [], _ => true
  | _ :: _, [] => false
  | p :: ps, c :: cs => p == c && startsWithL ps cs

/-- Bool test that `pat` occurs contiguously inside `s`
(embeds Python's `pat in s` on strings). -/
def containsL (pat : List Char) : List Char → Bool
  | [] => startsWithL pat []
  | c :: cs => startsWithL pat (c :: cs) || containsL pat cs

/-- Python `pat in s` for `String`s. -/
def strContains (s pat : String) : Bool :=
  containsL pat.toList s.toList

/-- Python `any(word in s for word in kws)`. -/
def containsAny (s : String) (kws : List String) : Bool :=
  kws.any (fun k => strContains s k)

/-- Index of the first occurrence of `pat` in `s`, if any
(embeds Python `str.find`, with absence as `none` instead of `-1`). -/
def findSubL (pat : List Char) : List Char → Option Nat
  | [] => if pat.isEmpty then some 0 else none
  | c :: cs =>
    if startsWithL pat (c :: cs) then some 0
    else (findSubL pat cs).map (· + 1)

/-- Python `str.strip()`: drop whitespace from both ends. -/
def pyStripL (s : List Char) : List Char :=
  ((s.dropWhile Char.isWhitespace).reverse.dropWhile Char.isWhitespace).reverse

/-- Python `str.strip()` on `String`s. -/
def pyStrip (s : String) : String :=
  String.mk (pyStripL s.toList)

/-- Helper for `pySplit`: accumulates the current in-progress token
(in reverse) while scanning. -/
def pySplitAux : List Char → List Char → List String
  | [], acc => if acc.isEmpty then [] else [String.mk acc.reverse]
  | c :: cs, acc =>
    if c.isWhitespace then
      if acc.isEmpty then pySplitAux cs []
      else String.mk acc.reverse :: pySplitAux cs []
    else pySplitAux cs (c :: acc)

/-- Python `str.split()` with no argument: split on runs of whitespace,
discarding empty tokens. -/
def pySplit (s : String) : List String :=
  pySplitAux s.toList []

/-- Python `" ".join(ws)`. -/
def joinSpace : List String → String
  | [] => ""
  | [w] => w
  | w :: ws => w ++ " " ++ joinSpace ws

/-- First-match association-list lookup, embedding Python `dict`
membership/getitem for the dictionaries modelled in this file
(all of which have distinct keys). -/
def alookup {α β : Type} [DecidableEq α] : List (α × β) → α → Option β
  | [], _ => none
  | (k, v) :: rest, key => if key = k then some v else alookup rest key

/-! ## Task classifier (`AIAgent._classify_task`, `core/agent.py`) -/

/-- The `TaskType` enumeration of `model_orchestrator.py`. -/
inductive TaskType where
  | CHAT
  | TRANSLATION
  | GRAMMAR_ANALYSIS
  | TEXT_ANALYSIS
  | QUICK_RESPONSE
  | CREATIVE_WRITING
deriving DecidableEq

/-- The `.value` string of each `TaskType` member. -/
def TaskType.value : TaskType → String
  | .CHAT => "chat"
  | .TRANSLATION => "translation"
  | .GRAMMAR_ANALYSIS => "grammar"
  | .TEXT_ANALYSIS => "analysis"
  | .QUICK_RESPONSE => "quick"
  | .CREATIVE_WRITING => "creative"

def jlptKeywords : List String :=
  ["jlpt", "vocabulary", "vocab", "word", "kanji", "n1", "n2", "n3", "n4", "n5"]

def searchVerbKeywords : List String :=
  ["search", "find", "look for", "what is"]

def translationKeywords : List String :=
  ["translate", "translation", "mean", "english"]

def grammarKeywords : List String :=
  ["grammar", "particle", "explain", "why", "how"]

def analysisKeywords : List String :=
  ["analyze", "analysis", "breakdown", "parse"]

def creativeKeywords : List String :=
  ["write", "create", "compose", "story", "essay"]

/-- Embedding of `AIAgent._classify_task`: ordered keyword rules over the
lowercased message, then the short-question rule, then the `chat`
default. -/
def classifyTask (message : String) : TaskType :=
  let ml := pyLower message
  if containsAny ml jlptKeywords && containsAny ml searchVerbKeywords then
    .TEXT_ANALYSIS
  else if containsAny ml translationKeywords then .TRANSLATION
  else if containsAny ml grammarKeywords then .GRAMMAR_ANALYSIS
  else if containsAny ml analysisKeywords then .TEXT_ANALYSIS
  else if containsAny ml creativeKeywords then .CREATIVE_WRITING
  else if decide (message.length < 50) && strContains message "?" then
    .QUICK_RESPONSE
  else .CHAT

/-- True when the message triggers none of classifier rules 1-5
(the vocabulary-search pattern and the translation, grammar, analysis
and creative keyword sets). -/
def noRuleKeyword (message : String) : Bool :=
  let ml := pyLower message
  !(containsAny ml jlptKeywords && containsAny ml searchVerbKeywords) &&
  !containsAny ml translationKeywords &&
  !containsAny ml grammarKeywords &&
  !containsAny ml analysisKeywords &&
  !containsAny ml creativeKeywords

/-! ## Conversation log (`AIAgent._store_conversation`) -/

/-- The `Conversation` record stored in `conversation_history`. -/
structure Conversation where
  user_id : String
  user_message : String
  ai_response : String
deriving DecidableEq

/-- Embedding of `AIAgent._store_conversation`: append, then if the log
exceeds 1000 entries keep only the most recent 500
(Python `history[-500:]`). -/
def storeConversation (history : List Conversation) (c : Conversation) :
    List Conversation :=
  let h := history ++ [c]
  if 1000 < h.length then h.drop (h.length - 500) else h

/-- Appending a batch of records one at a time, starting from the empty
log. -/
def storeAll (records : List Conversation) : List Conversation :=
  records.foldl storeConversation []

/-! ## Translation subsystem (`services/translation_service.py`) -/

/-- The `TranslationProvider` enumeration. -/
inductive TranslationProvider where
  | GOOGLE
  | DEEPL
  | MICROSOFT
  | ANTHROPIC
  | OLLAMA
  | SIMPLE
deriving DecidableEq

/-- The `TranslationResult` dictionary returned by every provider;
confidence is modelled as an exact rational. Auxiliary keys that some
providers add (`detected_language`, `model`, `error`) carry no decision
logic and are omitted. -/
structure TranslationResult where
  translated_text : String
  source_language : String
  target_language : String
  confidence : ℚ
  provider : String
  method : String
  note : Option String := none
deriving DecidableEq

/-- The `("ja", "en")` phrase table of `SimpleTranslationProvider`. -/
def jaToEnTable : List (String × String) :=
  [("こんにちは", "Hello"),
   ("こんばんは", "Good evening"),
   ("おはよう", "Good morning"),
   ("おはようございます", "Good morning (polite)"),
   ("ありがとう", "Thank you"),
   ("ありがとうございます", "Thank you very much"),
   ("すみません", "Excuse me / I'm sorry"),
   ("はい", "Yes"),
   ("いいえ", "No"),
   ("さようなら", "Goodbye"),
   ("また明日", "See you tomorrow"),
   ("お疲れ様", "Good work / Thank you for your hard work"),
   ("私", "I / me"),
   ("あなた", "You"),
   ("彼", "He"),
   ("彼女", "She"),
   ("学生", "student"),
   ("先生", "teacher"),
   ("友達", "friend"),
   ("家族", "family"),
   ("食べる", "to eat"),
   ("飲む", "to drink"),
   ("行く", "to go"),
   ("来る", "to come"),
   ("見る", "to see/watch"),
   ("読む", "to read"),
   ("書く", "to write"),
   ("話す", "to speak"),
   ("聞く", "to listen/hear"),
   ("わかる", "to understand"),
   ("好き", "like"),
   ("嫌い", "dislike"),
   ("大きい", "big"),
   ("小さい", "small"),
   ("新しい", "new"),
   ("古い", "old"),
   ("美しい", "beautiful"),
   ("今日", "today"),
   ("昨日", "yesterday"),
   ("明日", "tomorrow"),
   ("朝", "morning"),
   ("昼", "noon/lunch"),
   ("夜", "night"),
   ("時間", "time"),
   ("お金", "money"),
   ("仕事", "work/job"),
   ("学校", "school"),
   ("家", "house/home"),
   ("駅", "station"),
   ("病院", "hospital"),
   ("レストラン", "restaurant"),
   ("コンビニ", "convenience store"),
   ("映画", "movie"),
   ("音楽", "music"),
   ("本", "book"),
   ("車", "car"),
   ("電車", "train"),
   ("バス", "bus"),
   ("飛行機", "airplane")]

/-- The `("en", "ja")` phrase table of `SimpleTranslationProvider`. -/
def enToJaTable : List (String × String) :=
  [("hello", "こんにちは"),
   ("good morning", "おはようございます"),
   ("good evening", "こんばんは"),
   ("thank you", "ありがとうございます"),
   ("excuse me", "すみません"),
   ("sorry", "すみません"),
   ("yes", "はい"),
   ("no", "いいえ"),
   ("goodbye", "さようなら"),
   ("see you tomorrow", "また明日"),
   ("i", "私"),
   ("you", "あなた"),
   ("he", "彼"),
   ("she", "彼女"),
   ("student", "学生"),
   ("teacher", "先生"),
   ("friend", "友達"),
   ("family", "家族"),
   ("eat", "食べる"),
   ("drink", "飲む"),
   ("go", "行く"),
   ("come", "来る"),
   ("see", "見る"),
   ("watch", "見る"),
   ("read", "読む"),
   ("write", "書く"),
   ("speak", "話す"),
   ("listen", "聞く"),
   ("understand", "わかる"),
   ("like", "好き"),
   ("dislike", "嫌い"),
   ("big", "大きい"),
   ("small", "小さい"),
   ("new", "新しい"),
   ("old", "古い"),
   ("beautiful", "美しい"),
   ("today", "今日"),
   ("yesterday", "昨日"),
   ("tomorrow", "明日"),
   ("morning", "朝"),
   ("noon", "昼"),
   ("night", "夜"),
   ("time", "時間"),
   ("money", "お金"),
   ("work", "仕事"),
   ("job", "仕事"),
   ("school", "学校"),
   ("house", "家"),
   ("home", "家"),
   ("station", "駅"),
   ("hospital", "病院"),
   ("restaurant", "レストラン"),
   ("movie", "映画"),
   ("music", "音楽"),
   ("book", "本"),
   ("car", "車"),
   ("train", "電車"),
   ("bus", "バス"),
   ("airplane", "飛行機")]

/-- `self.translations.get((source_lang, target_lang), {})`. -/
def translationsFor (source target : String) : List (String × String) :=
  if source = "ja" ∧ target = "en" then jaToEnTable
  else if source = "en" ∧ target = "ja" then enToJaTable
  else []

/-- The two sequential exact-match probes of
`SimpleTranslationProvider.translate`: for Japanese-involving pairs try
the stripped original text first, then (in all cases) the
lowercased-and-stripped text. -/
def exactLookup (text source target : String) : Option String :=
  let dict := translationsFor source target
  match (if source = "ja" ∨ target = "ja" then alookup dict (pyStrip text)
         else none) with
  | some t => some t
  | none => alookup dict (pyStrip (pyLower text))

/-- Embedding of `SimpleTranslationProvider.translate` (dictionary-lookup
provider): exact match, then word-by-word with bracketed untranslated
tokens, then the zero-confidence not-found result. Total by
construction, mirroring the source's never-raising guarantee. -/
def simpleTranslate (text source target : String) : TranslationResult :=
  let dict := translationsFor source target
  match exactLookup text source target with
  | some t =>
    { translated_text := t, source_language := source,
      target_language := target, confidence := 9/10,
      provider := "simple", method := "exact_match" }
  | none =>
    let words := pySplit (pyStrip (pyLower text))
    if 1 < words.length ∧ words.any (fun w => (alookup dict w).isSome) then
      { translated_text :=
          joinSpace (words.map (fun w =>
            match alookup dict w with
            | some t => t
            | none => "[" ++ w ++ "]")),
        source_language := source, target_language := target,
        confidence := 3/5, provider := "simple", method := "word_by_word",
        note := some "Some words marked with [] could not be translated" }
    else
      { translated_text := "[Translation not available for '" ++ text ++ "']",
        source_language := source, target_language := target,
        confidence := 0, provider := "simple", method := "not_found",
        note := some
          "Consider using a more advanced translation provider for better results" }

/-- The explicit kana character set built in
`TranslationService.detect_language` (plain and voiced/semi-voiced
hiragana and katakana letters; notably it omits small kana such as っ
and the prolonged sound mark ー). -/
def japaneseCharsList : List Char :=
  ("あいうえおかきくけこさしすせそたちつてとなにぬねのはひふへほまみむめもやゆよらりるれろわをん" ++
   "アイウエオカキクケコサシスセソタチツテトナニヌネノハヒフヘホマミムメモヤユヨラリルレロワヲン" ++
   "がぎぐげござじずぜぞだぢづでどばびぶべぼぱぴぷぺぽ" ++
   "ガギグゲゴザジズゼゾダヂヅデドバビブベボパピプペポ").toList

/-- Embedding of Python `str.isalpha` on the character repertoire this
development uses: ASCII letters, the Hiragana and Katakana blocks
(including small kana, iteration marks and the prolonged sound mark,
all of which Python classifies as alphabetic), and CJK unified
ideographs. Characters outside these ranges are treated as
non-alphabetic. -/
def pyIsAlpha (c : Char) : Bool :=
  let n := c.toNat
  (97 ≤ n && n ≤ 122) || (65 ≤ n && n ≤ 90) ||
  (0x3041 ≤ n && n ≤ 0x3096) || (0x309D ≤ n && n ≤ 0x309E) ||
  (0x30A1 ≤ n && n ≤ 0x30FA) || (0x30FC ≤ n && n ≤ 0x30FE) ||
  (0x4E00 ≤ n && n ≤ 0x9FFF)

/-- Number of characters of `text` belonging to the code's explicit kana
set (`japanese_count`). -/
def japaneseCount (text : String) : Nat :=
  (text.toList.filter (fun c => japaneseCharsList.contains c)).length

/-- Number of alphabetic characters of `text` (`total_chars`). -/
def alphaCount (text : String) : Nat :=
  (text.toList.filter pyIsAlpha).length

/-- Embedding of `TranslationService.detect_language`: `unknown` when
there is no alphabetic character, else `ja` when the kana-set ratio
exceeds 0.3, else `en`. -/
def detectLanguage (text : String) : String :=
  let jc := japaneseCount text
  let total := alphaCount text
  if total = 0 then "unknown"
  else if (3 : ℚ) / 10 < (jc : ℚ) / (total : ℚ) then "ja"
  else "en"

/-- True when `c` lies in the Hiragana (U+3040..U+309F) or Katakana
(U+30A0..U+30FF) Unicode blocks. -/
def inKanaRange (c : Char) : Bool :=
  let n := c.toNat
  (0x3040 ≤ n && n ≤ 0x309F) || (0x30A0 ≤ n && n ≤ 0x30FF)

/-- Modelled from the spec: the language-detection heuristic as the spec
words it, counting characters falling in the Hiragana/Katakana Unicode
ranges rather than the code's explicit kana set. Used only to compare
the spec's description with `detectLanguage`. -/
def specDetectLanguage (text : String) : String :=
  let jc := (text.toList.filter inKanaRange).length
  let total := alphaCount text
  if total = 0 then "unknown"
  else if (3 : ℚ) / 10 < (jc : ℚ) / (total : ℚ) then "ja"
  else "en"

/-- Behaviour of one registered translation provider: `none` models a
raised exception. -/
abbrev TransFun := String → String → String → Option TranslationResult

/-- The static `provider_preferences` table of `TranslationService`,
keyed by `(source_lang, target_lang)`. -/
def providerPreferences :
    List ((String × String) × List TranslationProvider) :=
  [(("ja", "en"), [.GOOGLE, .ANTHROPIC, .SIMPLE]),
   (("en", "ja"), [.GOOGLE, .ANTHROPIC, .SIMPLE]),
   (("auto", "en"), [.GOOGLE, .ANTHROPIC, .SIMPLE]),
   (("auto", "ja"), [.GOOGLE, .ANTHROPIC, .SIMPLE])]

/-- Walk a preference list, skipping unregistered providers and
returning the first success (`TranslationService.translate`'s fallback
loop). -/
def tryPreferred (providers : List (TranslationProvider × TransFun))
    (text src tgt : String) :
    List TranslationProvider → Option TranslationResult
  | [] => none
  | p :: rest =>
    match alookup providers p with
    | none => tryPreferred providers text src tgt rest
    | some f =>
      match f text src tgt with
      | some r => some r
      | none => tryPreferred providers text src tgt rest

/-- The all-providers-failed result of `TranslationService.translate`. -/
def translationFailedResult (text src tgt : String) : TranslationResult :=
  { translated_text := "[Translation failed for '" ++ text ++ "']",
    source_language := src, target_language := tgt, confidence := 0,
    provider := "none", method := "error", note := none }

/-- Embedding of `TranslationService.translate`: auto-detect the source
language, honour an explicitly requested registered provider, then walk
the language pair's preference chain, and fall back to the error
result when everything fails. -/
def serviceTranslate (providers : List (TranslationProvider × TransFun))
    (text targetLang sourceLang : String)
    (requested : Option TranslationProvider) : TranslationResult :=
  let actualSource :=
    if sourceLang = "auto" then detectLanguage text else sourceLang
  let viaPrefs :=
    let prefs := (alookup providerPreferences (actualSource, targetLang)).getD
      [TranslationProvider.SIMPLE]
    match tryPreferred providers text actualSource targetLang prefs with
    | some r => r
    | none => translationFailedResult text actualSource targetLang
  match requested with
  | some p =>
    match alookup providers p with
    | some f =>
      match f text actualSource targetLang with
      | some r => r
      | none => viaPrefs
    | none => viaPrefs
  | none => viaPrefs

/-! ## Orchestrator (`services/model_orchestrator.py`) -/

/-- Behaviour of one registered model's `generate_response` on a given
content string: `.error e` models a raised exception. The orchestrator
passes the extracted Japanese-analysis context along too; since every
claim quantifies over arbitrary provider behaviour, that extra argument
is absorbed into the function. -/
abbrev GenFun := String → Except String String

/-- Orchestrator state: the active model set (`self.models`), the task
preference table (`self.task_preferences`) and the translation service's
registered providers. -/
structure Orchestrator where
  models : List (String × GenFun)
  taskPreferences : List (TaskType × List String)
  translationProviders : List (TranslationProvider × TransFun)

/-- The default `task_preferences` installed by
`setup_default_preferences`. -/
def defaultTaskPreferences : List (TaskType × List String) :=
  [(.CHAT, ["ollama", "groq", "anthropic", "simple"]),
   (.TRANSLATION, ["anthropic", "gemini", "ollama", "groq", "simple"]),
   (.GRAMMAR_ANALYSIS, ["anthropic", "gemini", "ollama", "simple"]),
   (.TEXT_ANALYSIS, ["local", "ollama", "simple"]),
   (.QUICK_RESPONSE, ["groq", "simple", "local"]),
   (.CREATIVE_WRITING, ["ollama", "anthropic", "gemini", "groq", "simple"])]

/-- The terminal message of `process_task` when the preference chain is
exhausted. -/
def noModelsMessage (t : TaskType) : String :=
  "Sorry, no models available for " ++ t.value ++ " task."

/-- The provider-chain loop of `process_task`: walk the preference list,
skip names absent from the active set, return the first success, and on
failure either continue (fallback) or re-raise. The first component
records, in order, every model whose `generate_response` was actually
attempted; the second is `none` when the chain was exhausted. -/
def runPreferred (models : List (String × GenFun)) (content : String)
    (fallback : Bool) :
    List String → List String × Option (Except String String)
  | [] => ([], none)
  | name :: rest =>
    match alookup models name with
    | none => runPreferred models content fallback rest
    | some f =>
      match f content with
      | .ok r => ([name], some (.ok r))
      | .error e =>
        if fallback then
          let p := runPreferred models content fallback rest
          (name :: p.1, p.2)
        else ([name], some (.error e))

/-! ### Translation-task parsing (`_handle_translation_task`) -/

/-- Target-language extraction of `_handle_translation_task` over the
lowercased content: `ja` on an explicit to-Japanese request, else `en`
(the `elif` and the default agree on `en`). -/
def transTargetLang (contentLower : String) : String :=
  if strContains contentLower "translate to japanese" ||
     strContains contentLower "in japanese" then "ja"
  else if strContains contentLower "translate to english" ||
          strContains contentLower "in english" ||
          strContains contentLower "mean" then "en"
  else "en"

/-- The prefix-stripping loop of `_handle_translation_task`: remove the
first listed marker that the lowercased text starts with, then strip. -/
def stripPrefixLoop (textPart : String) : List String → String
  | [] => textPart
  | p :: rest =>
    if startsWithL p.toList (pyLower textPart).toList then
      pyStrip (String.mk (textPart.toList.drop p.toList.length))
    else stripPrefixLoop textPart rest

/-- Text-to-translate extraction of `_handle_translation_task`:
everything after a literal (case-sensitive) `translate` with known
prefixes stripped, or the text between `what does` and `mean`, or the
whole content. -/
def extractTextToTranslate (content : String) : String :=
  let cl := pyLower content
  let targetLang := transTargetLang cl
  if strContains cl "translate" then
    match findSubL "translate".toList content.toList with
    | some i =>
      let textPart :=
        pyStrip (String.mk (content.toList.drop (i + "translate".toList.length)))
      let stripped := stripPrefixLoop textPart
        ["to " ++ targetLang ++ ":", "to japanese:", "to english:", ":"]
      if stripped.isEmpty then content else stripped
    | none => content
  else if strContains cl "what does" && strContains cl "mean" then
    match findSubL "what does".toList cl.toList, findSubL "mean".toList cl.toList with
    | some s, some e =>
      let start := s + "what does".toList.length
      if start < e then
        pyStrip (String.mk ((content.toList.drop start).take (e - start)))
      else content
    | _, _ => content
  else content

/-- The rejection message `_handle_translation_task` returns for
low-confidence translation results. -/
def couldNotTranslateMessage (t : String) : String :=
  "I couldn't translate '" ++ t ++
  "'. Try installing Google Translate support: pip install googletrans==4.0.0-rc1"

/-- Embedding of `ModelOrchestrator._handle_translation_task`: parse the
request, call the translation service with auto (or Japanese) source,
and format the answer, rejecting results whose confidence is at most
0.5. -/
def handleTranslationTask
    (providers : List (TranslationProvider × TransFun))
    (content : String) (hasJapaneseAnalysis : Bool) : String :=
  let targetLang := transTargetLang (pyLower content)
  let textToTranslate := extractTextToTranslate content
  let sourceLang := if hasJapaneseAnalysis then "ja" else "auto"
  let result := serviceTranslate providers textToTranslate targetLang sourceLang none
  if 1/2 < result.confidence then
    let base := "Translation: " ++ result.translated_text
    let base2 :=
      if result.provider ≠ "simple" then
        base ++ "\n(via " ++ result.provider ++ " translation)"
      else base
    match result.note with
    | some n => base2 ++ "\nNote: " ++ n
    | none => base2
  else couldNotTranslateMessage textToTranslate

/-- Embedding of `ModelOrchestrator.process_task`. Translation tasks are
delegated to `handleTranslationTask`; every other category walks its
preference chain. The first component is the ordered list of models
whose `generate_response` was attempted; the second is `.error e` only
when `fallback` is disabled and an attempted model raised `e`. -/
def processTask (o : Orchestrator) (t : TaskType) (content : String)
    (hasJapaneseAnalysis : Bool) (fallback : Bool) :
    List String × Except String String :=
  if t = TaskType.TRANSLATION then
    ([], .ok (handleTranslationTask o.translationProviders content hasJapaneseAnalysis))
  else
    let prefs := (alookup o.taskPreferences t).getD ["simple"]
    let p := runPreferred o.models content fallback prefs
    match p.2 with
    | some r => (p.1, r)
    | none => (p.1, .ok (noModelsMessage t))

/-! ## Helper lemmas -/

/-- Folding the store operation never truncates while the batch fits
under the 1000-entry cap. -/
theorem foldl_store_of_le (rs : List Conversation) :
    ∀ acc : List Conversation, acc.length + rs.length ≤ 1000 →
      rs.foldl storeConversation acc = acc ++ rs := by
  induction rs with
  | nil => intro acc _; simp
  | cons r rs ih =>
    intro acc h
    simp only [List.length_cons] at h
    have hstep : storeConversation acc r = acc ++ [r] := by
      simp only [storeConversation]
      rw [if_neg]
      simp only [List.length_append, List.length_cons, List.length_nil]
      omega
    have hfit : (acc ++ [r]).length + rs.length ≤ 1000 := by
      simp only [List.length_append, List.length_cons, List.length_nil]
      omega
    rw [List.foldl_cons, hstep, ih (acc ++ [r]) hfit]
    simp

/-- A preference chain whose names are all absent from the active model
set attempts nothing and is exhausted. -/
theorem runPreferred_all_absent (models : List (String × GenFun))
    (content : String) (fb : Bool) (prefs : List String)
    (h : ∀ n ∈ prefs, alookup models n = none) :
    runPreferred models content fb prefs = ([], none) := by
  induction prefs with
  | nil => rfl
  | cons name rest ih =>
    simp only [runPreferred, h name (List.mem_cons_self name rest)]
    exact ih fun n hn => h n (List.mem_cons_of_mem _ hn)

/-- A translation preference chain in which every registered provider
fails yields no result. -/
theorem tryPreferred_all_fail (providers : List (TranslationProvider × TransFun))
    (text src tgt : String) (prefs : List TranslationProvider)
    (h : ∀ q ∈ prefs, ∀ f, alookup providers q = some f →
        f text src tgt = none) :
    tryPreferred providers text src tgt prefs = none := by
  induction prefs with
  | nil => rfl
  | cons p rest ih =>
    have ihr := ih fun q hq f hf => h q (List.mem_cons_of_mem _ hq) f hf
    cases hp : alookup providers p with
    | none => simp only [tryPreferred, hp]; exact ihr
    | some f =>
      simp only [tryPreferred, hp, h p (List.mem_cons_self p rest) f hp]
      exact ihr

/-! ## Claims -/

/-- Claim C3: every message containing a translation keyword
(`translate`, `translation`, `mean`, `english`) after lowercasing that
does not match the higher-priority vocabulary-search pattern (a
vocabulary/JLPT keyword together with an explicit search verb)
classifies as the translation category. -/
theorem classify_translation_keyword (message : String)
    (htr : containsAny (pyLower message) translationKeywords = true)
    (hvs : (containsAny (pyLower message) jlptKeywords &&
        containsAny (pyLower message) searchVerbKeywords) = false) :
    classifyTask message = TaskType.TRANSLATION := by
  simp [classifyTask, hvs, htr]

/-- Witness for C3 at the concrete message "please translate this". -/
theorem classify_translation_keyword_witness :
    classifyTask "please translate this" = TaskType.TRANSLATION :=
  classify_translation_keyword "please translate this" (by decide) (by decide)

/-- Claim C9: a message shorter than 50 characters that contains `?`
and triggers no keyword of classifier rules 1-5 classifies as
quick_response, and the same text padded past 50 characters (without
introducing any rule keyword) classifies as chat. -/
theorem classify_quick_response_padding (m pad : String)
    (h1 : noRuleKeyword m = true)
    (h2 : m.length < 50)
    (h3 : strContains m "?" = true)
    (h4 : noRuleKeyword (m ++ pad) = true)
    (h5 : 50 ≤ (m ++ pad).length) :
    classifyTask m = TaskType.QUICK_RESPONSE ∧
    classifyTask (m ++ pad) = TaskType.CHAT := by
  simp only [noRuleKeyword, Bool.and_eq_true, Bool.not_eq_true'] at h1 h4
  obtain ⟨⟨⟨⟨h1a, h1b⟩, h1c⟩, h1d⟩, h1e⟩ := h1
  obtain ⟨⟨⟨⟨h4a, h4b⟩, h4c⟩, h4d⟩, h4e⟩ := h4
  constructor
  · simp [classifyTask, h1a, h1b, h1c, h1d, h1e, h2, h3]
  · have hlen : ¬ m.length + pad.length < 50 := by
      rw [← String.length_append]
      exact not_lt.mpr h5
    simp [classifyTask, h4a, h4b, h4c, h4d, h4e, hlen]

/-- Witness for C9 at the message "ok?" padded with 50 dots. -/
theorem classify_quick_response_padding_witness :
    classifyTask "ok?" = TaskType.QUICK_RESPONSE ∧
    classifyTask ("ok?" ++ "..................................................")
      = TaskType.CHAT :=
  classify_quick_response_padding "ok?"
    ".................................................."
    (by decide) (by decide) (by decide) (by decide) (by decide)

/-- Claim C7: appending 1001 records one at a time to an initially empty
conversation log leaves exactly 500 records, namely the most recently
appended 500 in their original append order. -/
theorem conversation_log_eviction (records : List Conversation)
    (h : records.length = 1001) :
    storeAll records = records.drop 501 ∧ (storeAll records).length = 500 := by
  have hne : records ≠ [] := by
    intro he
    rw [he] at h
    simp at h
  obtain ⟨rs, r, hrec⟩ : ∃ rs r, records = rs ++ [r] :=
    ⟨records.dropLast, records.getLast hne,
      (records.dropLast_append_getLast hne).symm⟩
  subst hrec
  have hrs : rs.length = 1000 := by
    rw [List.length_append, List.length_singleton] at h
    omega
  have hfold : rs.foldl storeConversation [] = rs := by
    simpa using foldl_store_of_le rs [] (by simp [hrs])
  have hlen : (rs ++ [r]).length = 1001 := by
    simp [hrs]
  have hstore : storeAll (rs ++ [r]) = (rs ++ [r]).drop 501 := by
    unfold storeAll
    rw [List.foldl_append, List.foldl_cons, List.foldl_nil, hfold]
    simp only [storeConversation]
    rw [if_pos (by rw [hlen]; omega), hlen]
  exact ⟨hstore, by rw [hstore, List.length_drop, hlen]⟩

/-- Witness for C7 on a concrete batch of 1001 records. -/
theorem conversation_log_eviction_witness :
    (storeAll (List.replicate 1001 ⟨"u", "m", "r"⟩)).length = 500 :=
  (conversation_log_eviction (List.replicate 1001 ⟨"u", "m", "r"⟩)
    (by rw [List.length_replicate])).2

/-- Counterexample to claim C6 as stated: on "っっっ" (three small-tsu
characters, which lie in the Hiragana Unicode range and are alphabetic)
the code returns "en", while the claimed range-ratio rule (ratio 1 >
0.3) demands "ja". The code counts only its explicit kana set, which
omits small kana. -/
theorem detect_language_range_counterexample :
    detectLanguage "っっっ" = "en" ∧ specDetectLanguage "っっっ" = "ja" := by
  have h1 : japaneseCount "っっっ" = 0 := by decide
  have h2 : alphaCount "っっっ" = 3 := by decide
  have h3 : (List.filter inKanaRange "っっっ".toList).length = 3 := by decide
  constructor
  · simp only [detectLanguage, h1, h2]
    rw [if_neg (by norm_num), if_neg (by norm_num)]
  · simp only [specDetectLanguage, h3, h2]
    rw [if_neg (by norm_num), if_pos (by norm_num)]

/-- Claim C6 (amended): detect_language returns "unknown" exactly when
the text has zero alphabetic characters; otherwise it returns "ja" when
the ratio of characters of the code's explicit kana set (plain and
voiced full-size kana, excluding small kana and other kana-block
characters) to alphabetic characters exceeds 0.3, and "en" otherwise. -/
theorem detect_language_characterization (text : String) :
    (detectLanguage text = "unknown" ↔ alphaCount text = 0) ∧
    (alphaCount text ≠ 0 →
      (detectLanguage text = "ja" ↔
        3 * alphaCount text < 10 * japaneseCount text) ∧
      (detectLanguage text = "en" ↔
        ¬ 3 * alphaCount text < 10 * japaneseCount text)) := by
  by_cases htot : alphaCount text = 0
  · have hdet : detectLanguage text = "unknown" := by
      simp [detectLanguage, htot]
    exact ⟨iff_of_true hdet htot, fun hne => absurd htot hne⟩
  · have hpos : (0 : ℚ) < (alphaCount text : ℚ) := by
      exact_mod_cast Nat.pos_of_ne_zero htot
    have hratio : ((3 : ℚ) / 10 < (japaneseCount text : ℚ) / (alphaCount text : ℚ)) ↔
        3 * alphaCount text < 10 * japaneseCount text := by
      rw [div_lt_div_iff₀ (by norm_num) hpos]
      rw [mul_comm ((japaneseCount text : ℚ)) 10]
      constructor
      · intro hh
        exact_mod_cast hh
      · intro hh
        exact_mod_cast hh
    by_cases hja : 3 * alphaCount text < 10 * japaneseCount text
    · have hdet : detectLanguage text = "ja" := by
        simp only [detectLanguage]
        rw [if_neg htot, if_pos (hratio.mpr hja)]
      refine ⟨by rw [hdet]; exact iff_of_false (by decide) htot, fun _ => ?_⟩
      exact ⟨iff_of_true hdet hja,
        by rw [hdet]; exact iff_of_false (by decide) (not_not_intro hja)⟩
    · have hdet : detectLanguage text = "en" := by
        simp only [detectLanguage]
        rw [if_neg htot, if_neg (fun hc => hja (hratio.mp hc))]
      refine ⟨by rw [hdet]; exact iff_of_false (by decide) htot, fun _ => ?_⟩
      exact ⟨by rw [hdet]; exact iff_of_false (by decide) hja,
        iff_of_true hdet hja⟩

/-- Witness for the amended C6 at "あああ" (all-kana text, classified as
Japanese). -/
theorem detect_language_characterization_witness :
    detectLanguage "あああ" = "ja" :=
  (((detect_language_characterization "あああ").2 (by decide)).1).mpr (by decide)

/-- Claim C8: translating "こんにちは" ja→en with the dictionary provider
and translating the result back en→ja lands on "こんにちは" again, a
greeting present in the phrase table. -/
theorem dictionary_roundtrip_greeting :
    (simpleTranslate (simpleTranslate "こんにちは" "ja" "en").translated_text
      "en" "ja").translated_text = "こんにちは" ∧
    alookup jaToEnTable "こんにちは" = some "Hello" := by
  constructor <;> decide

/-- Claim C5: the dictionary-lookup provider is total (always yields a
"simple"-provider result with one of the three declared confidences) and
follows the exact-match / word-by-word / not-found algorithm. -/
theorem simple_provider_algorithm (text source target : String) :
    ((simpleTranslate text source target).provider = "simple" ∧
      ((simpleTranslate text source target).confidence = 9/10 ∨
       (simpleTranslate text source target).confidence = 3/5 ∨
       (simpleTranslate text source target).confidence = 0)) ∧
    (∀ t, exactLookup text source target = some t →
      simpleTranslate text source target =
        { translated_text := t, source_language := source,
          target_language := target, confidence := 9/10,
          provider := "simple", method := "exact_match" }) ∧
    (exactLookup text source target = none →
      1 < (pySplit (pyStrip (pyLower text))).length →
      (pySplit (pyStrip (pyLower text))).any
        (fun w => (alookup (translationsFor source target) w).isSome) = true →
      simpleTranslate text source target =
        { translated_text :=
            joinSpace ((pySplit (pyStrip (pyLower text))).map (fun w =>
              match alookup (translationsFor source target) w with
              | some t => t
              | none => "[" ++ w ++ "]")),
          source_language := source, target_language := target,
          confidence := 3/5, provider := "simple", method := "word_by_word",
          note := some "Some words marked with [] could not be translated" }) ∧
    (exactLookup text source target = none →
      ¬ (1 < (pySplit (pyStrip (pyLower text))).length ∧
        (pySplit (pyStrip (pyLower text))).any
          (fun w => (alookup (translationsFor source target) w).isSome) = true) →
      simpleTranslate text source target =
        { translated_text := "[Translation not available for '" ++ text ++ "']",
          source_language := source, target_language := target,
          confidence := 0, provider := "simple", method := "not_found",
          note := some
            "Consider using a more advanced translation provider for better results" }) := by
  cases hex : exactLookup text source target with
  | some t0 =>
    refine ⟨⟨?_, Or.inl ?_⟩, ?_, ?_, ?_⟩
    · simp [simpleTranslate, hex]
    · simp [simpleTranslate, hex]
    · intro t ht
      cases ht
      simp [simpleTranslate, hex]
    · intro hnone
      exact absurd hnone (by simp)
    · intro hnone
      exact absurd hnone (by simp)
  | none =>
    by_cases hcond : 1 < (pySplit (pyStrip (pyLower text))).length ∧
        (pySplit (pyStrip (pyLower text))).any
          (fun w => (alookup (translationsFor source target) w).isSome) = true
    · refine ⟨⟨?_, Or.inr (Or.inl ?_)⟩, ?_, ?_, ?_⟩
      · simp only [simpleTranslate, hex]
        rw [if_pos hcond]
      · simp only [simpleTranslate, hex]
        rw [if_pos hcond]
      · intro t ht
        exact absurd ht (by simp)
      · intro _ _ _
        simp only [simpleTranslate, hex]
        rw [if_pos hcond]
      · intro _ hn
        exact absurd hcond hn
    · refine ⟨⟨?_, Or.inr (Or.inr ?_)⟩, ?_, ?_, ?_⟩
      · simp only [simpleTranslate, hex]
        rw [if_neg hcond]
      · simp only [simpleTranslate, hex]
        rw [if_neg hcond]
      · intro t ht
        exact absurd ht (by simp)
      · intro _ h1 h2
        exact absurd ⟨h1, h2⟩ hcond
      · intro _ _
        simp only [simpleTranslate, hex]
        rw [if_neg hcond]

/-- Witness for C5 on the word-by-word input "eat rice" (en→ja). -/
theorem simple_provider_algorithm_witness :
    simpleTranslate "eat rice" "en" "ja" =
      { translated_text := "食べる [rice]", source_language := "en",
        target_language := "ja", confidence := 3/5, provider := "simple",
        method := "word_by_word",
        note := some "Some words marked with [] could not be translated" } := by
  have h := (simple_provider_algorithm "eat rice" "en" "ja").2.2.1
    (by decide) (by decide) (by decide)
  rw [h]
  rfl

/-- Claim C1: for a non-translation task whose preference list is
`[A, B]` with both names in the active model set, when A's generate
raises and B's generate succeeds, `process_task` with fallback enabled
returns B's response, attempting exactly A then B. -/
theorem process_task_chain_order (o : Orchestrator) (t : TaskType)
    (content : String) (A B : String) (fA fB : GenFun) (e r : String)
    (hja : Bool)
    (ht : t ≠ TaskType.TRANSLATION)
    (hpref : alookup o.taskPreferences t = some [A, B])
    (hA : alookup o.models A = some fA)
    (hAe : fA content = .error e)
    (hB : alookup o.models B = some fB)
    (hBr : fB content = .ok r) :
    processTask o t content hja true = ([A, B], .ok r) := by
  simp [processTask, if_neg ht, hpref, runPreferred, hA, hAe, hB, hBr]

/-- Witness for C1 on a two-model orchestrator whose first model raises. -/
theorem process_task_chain_order_witness :
    processTask
      ⟨[("a", fun _ => Except.error "boom"), ("b", fun _ => Except.ok "resp")],
        [(TaskType.CHAT, ["a", "b"])], []⟩
      TaskType.CHAT "hi" false true = (["a", "b"], .ok "resp") :=
  process_task_chain_order _ TaskType.CHAT "hi" "a" "b" _ _ "boom" "resp" false
    (by decide) rfl rfl rfl rfl rfl

/-- Claim C2: for a non-translation task, when no name of the category's
preference list is present in the active model set, `process_task`
attempts nothing and returns the stable category-specific "no models
available" message instead of raising. -/
theorem process_task_no_models (o : Orchestrator) (t : TaskType)
    (content : String) (hja fallback : Bool)
    (ht : t ≠ TaskType.TRANSLATION)
    (habs : ∀ n ∈ (alookup o.taskPreferences t).getD ["simple"],
        alookup o.models n = none) :
    processTask o t content hja fallback = ([], .ok (noModelsMessage t)) := by
  simp only [processTask, if_neg ht]
  rw [runPreferred_all_absent o.models content fallback _ habs]

/-- Witness for C2 on an orchestrator with an empty active model set. -/
theorem process_task_no_models_witness :
    processTask ⟨[], [], []⟩ TaskType.CHAT "hi" false true
      = ([], .ok (noModelsMessage TaskType.CHAT)) :=
  process_task_no_models ⟨[], [], []⟩ TaskType.CHAT "hi" false true
    (by decide) (by intro n hn; rfl)

/-- Claim C4: when the explicitly requested provider (if any) fails or
is unregistered and every registered provider of the language pair's
preference chain fails, the translation service returns the
zero-confidence result with provider "none", method "error" and the
original text in a bracketed marker, instead of raising. -/
theorem service_translate_all_fail
    (providers : List (TranslationProvider × TransFun))
    (text targetLang sourceLang : String)
    (requested : Option TranslationProvider)
    (hreq : ∀ p f, requested = some p → alookup providers p = some f →
        f text (if sourceLang = "auto" then detectLanguage text else sourceLang)
          targetLang = none)
    (hprefs : ∀ q ∈ (alookup providerPreferences
          ((if sourceLang = "auto" then detectLanguage text else sourceLang),
            targetLang)).getD [TranslationProvider.SIMPLE],
        ∀ f, alookup providers q = some f →
          f text (if sourceLang = "auto" then detectLanguage text else sourceLang)
            targetLang = none) :
    serviceTranslate providers text targetLang sourceLang requested =
      translationFailedResult text
        (if sourceLang = "auto" then detectLanguage text else sourceLang)
        targetLang := by
  have hvia : tryPreferred providers text
      (if sourceLang = "auto" then detectLanguage text else sourceLang) targetLang
      ((alookup providerPreferences
        ((if sourceLang = "auto" then detectLanguage text else sourceLang),
          targetLang)).getD [TranslationProvider.SIMPLE]) = none :=
    tryPreferred_all_fail _ _ _ _ _ hprefs
  cases hr : requested with
  | none =>
    simp only [serviceTranslate, hvia]
  | some p =>
    cases hp : alookup providers p with
    | none =>
      simp only [serviceTranslate, hvia, hp]
    | some f =>
      simp only [serviceTranslate, hvia, hp, hreq p f hr hp]

/-- Witness for C4: a lone failing simple provider with an unregistered
explicit request. -/
theorem service_translate_all_fail_witness :
    serviceTranslate [(TranslationProvider.SIMPLE, fun _ _ _ => none)]
      "hi" "en" "en" (some TranslationProvider.GOOGLE) =
      translationFailedResult "hi" "en" "en" := by
  have h := service_translate_all_fail
    [(TranslationProvider.SIMPLE, fun _ _ _ => none)] "hi" "en" "en"
    (some TranslationProvider.GOOGLE)
    (by
      intro p f hp hf
      cases hp
      simp [alookup] at hf)
    (by
      intro q hq f hf
      simp [providerPreferences, alookup] at hq
      subst hq
      simp [alookup] at hf
      subst hf
      rfl)
  rw [show (if ("en" : String) = "auto" then detectLanguage "hi" else "en") = "en"
    from if_neg (by decide)] at h
  exact h

/-- Claim C10: when the translation service's result for the extracted
text has confidence at most 0.5, `process_task` on a translation task
returns the "I couldn't translate ..." message naming the extracted
text, never the low-confidence result's text. -/
theorem translation_low_confidence_rejected (o : Orchestrator)
    (content : String) (hja fallback : Bool)
    (hconf : (serviceTranslate o.translationProviders
        (extractTextToTranslate content)
        (transTargetLang (pyLower content))
        (if hja then "ja" else "auto") none).confidence ≤ 1/2) :
    processTask o TaskType.TRANSLATION content hja fallback =
      ([], .ok (couldNotTranslateMessage (extractTextToTranslate content))) := by
  have h1 : processTask o TaskType.TRANSLATION content hja fallback =
      ([], .ok (handleTranslationTask o.translationProviders content hja)) := by
    simp [processTask]
  rw [h1]
  simp only [handleTranslationTask]
  rw [if_neg (not_lt.mpr hconf)]

/-- Witness for C10 on a dictionary-only service asked to translate an
unknown word. -/
theorem translation_low_confidence_rejected_witness :
    processTask
      ⟨[], [], [(TranslationProvider.SIMPLE, fun t s g => some (simpleTranslate t s g))]⟩
      TaskType.TRANSLATION "translate to english: xyzzy" true true =
      ([], .ok (couldNotTranslateMessage
        (extractTextToTranslate "translate to english: xyzzy"))) := by
  apply translation_low_confidence_rejected
  have hc : (serviceTranslate
      [(TranslationProvider.SIMPLE, fun t s g => some (simpleTranslate t s g))]
      (extractTextToTranslate "translate to english: xyzzy")
      (transTargetLang (pyLower "translate to english: xyzzy"))
      (if true then "ja" else "auto") none).confidence = 0 := rfl
  rw [hc]
  norm_num
